import Mathlib

/-!
Shallow embedding of the Cinchro ffmpeg_tools job pipeline
(src/ffmpeg_tools/database.py and src/ffmpeg_tools/job_manager.py),
with theorems settling the claims about the spec.

Modelling conventions:
* Python strings are Lean `String`s (sequences of code points, as in Python).
* `datetime.now()` timestamps are abstracted to `Nat` clock ticks threaded
  through the state; each ledger write refreshes `last_updated` to the tick.
* SQLite's `conversion_jobs` table is a list of rows keyed by `job_id`
  (the PRIMARY KEY makes ids unique; `find?` models the keyed lookup).
* External subprocesses (`subprocess.run`) are modelled by a `ProcResult`
  supplied by the environment (exit code, stdout, stderr), and the file
  system by a list of existing paths.
-/

namespace Cinchro

/-- Result of one external process invocation (`subprocess.run` with
`capture_output=True, text=True`). -/
structure ProcResult where
  exitCode : Int
  stdout : String
  stderr : String
deriving Repr, DecidableEq

/-- One row of the `conversion_jobs` table (database.py `create_tables`).
`notes` is nullable (`Option`); `progress_percent` is REAL, modelled as `Rat`;
`last_updated` is the abstracted clock tick. -/
structure JobRow where
  job_id : String
  status : String
  input_file : String
  output_file : String
  ffmpeg_command : String
  rsync_user_host : Option String
  progress_percent : Rat
  last_updated : Nat
  notes : Option String
deriving Repr, DecidableEq

/-- The job ledger: the `conversion_jobs` table. -/
abbrev DB := List JobRow

/-- `JobDatabaseManager.get_job`: `SELECT * FROM conversion_jobs WHERE job_id = ?`,
returning the (unique) row if present. (The Python returns `{}` for a missing
id; we model that as `none`.) -/
def getJob (db : DB) (id : String) : Option JobRow :=
  db.find? (fun r => r.job_id == id)

/-- The fresh row inserted by `JobDatabaseManager.create_job`:
status `SUBMITTED`, progress `0.0`, timestamp now, notes NULL. -/
def newJobRow (id input_file output_file ffmpeg_command : String) (now : Nat) : JobRow :=
  { job_id := id, status := "SUBMITTED", input_file := input_file,
    output_file := output_file, ffmpeg_command := ffmpeg_command,
    rsync_user_host := none, progress_percent := 0, last_updated := now, notes := none }

/-- `JobDatabaseManager.create_job`: `INSERT INTO conversion_jobs ...`.
The PRIMARY KEY constraint on `job_id` makes SQLite raise `IntegrityError`
when the id already exists; otherwise the row is appended. -/
def createJob (db : DB) (id input_file output_file ffmpeg_command : String) (now : Nat) :
    Except String DB :=
  if (getJob db id).isSome then
    Except.error "sqlite3.IntegrityError: UNIQUE constraint failed: conversion_jobs.job_id"
  else
    Except.ok (db ++ [newJobRow id input_file output_file ffmpeg_command now])

/-- The effect of `update_job_status` on the single row matching the id:
status always overwritten, `progress_percent` only when a progress argument
was passed, `notes` only when a notes argument was passed, `last_updated`
always refreshed. -/
def applyUpd (r : JobRow) (status : String) (progress : Option Rat)
    (notes : Option String) (now : Nat) : JobRow :=
  { r with
    status := status,
    progress_percent := match progress with | some p => p | none => r.progress_percent,
    notes := match notes with | some n => some n | none => r.notes,
    last_updated := now }

/-- `JobDatabaseManager.update_job_status`: builds
`UPDATE conversion_jobs SET ... WHERE job_id = ?` and executes it. An UPDATE
matching zero rows succeeds silently, so the function is total: rows whose
`job_id` differs are untouched, and a missing id leaves the table unchanged. -/
def updateJobStatus (db : DB) (id status : String) (progress : Option Rat)
    (notes : Option String) (now : Nat) : DB :=
  db.map (fun r => if r.job_id == id then applyUpd r status progress notes now else r)

/-- Modelled from the spec: the Job Ledger `update` contract as the spec words
it — "Fails with `JobNotFound` if `id` is absent", otherwise overwrites the
given fields and refreshes the timestamp. Used only to compare the spec's
claimed behaviour with `updateJobStatus` (the code). -/
def updateSpec (db : DB) (id status : String) (progress : Option Rat)
    (notes : Option String) (now : Nat) : Except String DB :=
  if (getJob db id).isSome then
    Except.ok (updateJobStatus db id status progress notes now)
  else
    Except.error "JobNotFound"

/-! ## Path helpers (os.path on POSIX)

These are written as structural recursion over the character list so that
every concrete scenario evaluates inside the kernel. -/

/-- Split a character list at every separator character satisfying the
predicate (Python `str.split(sep)` semantics: empty pieces are kept). -/
def splitOnP (p : Char → Bool) : List Char → List (List Char)
  | [] => [[]]
  | c :: rest =>
    match splitOnP p rest with
    | [] => [[]]
    | h :: t => if p c then [] :: h :: t else (c :: h) :: t

/-- Python `s.startswith(p)` on code points. -/
def pyStartsWith (s p : String) : Bool :=
  p.data.isPrefixOf s.data

/-- Python `s.endswith(p)` on code points. -/
def pyEndsWith (s p : String) : Bool :=
  p.data.reverse.isPrefixOf s.data.reverse

/-- `os.path.basename`: everything after the last slash. -/
def basename (p : String) : String :=
  ⟨(splitOnP (fun c => c == '/') p.data).getLastD []⟩

/-- `os.path.dirname` (posixpath): the part before the last slash, with
trailing slashes stripped unless the head is all slashes. -/
def dirname (p : String) : String :=
  let parts := splitOnP (fun c => c == '/') p.data
  if parts.length ≤ 1 then ""
  else
    let head := List.intercalate ['/'] parts.dropLast ++ ['/']
    if head.all (fun c => c == '/') then ⟨head⟩
    else ⟨(head.reverse.dropWhile (fun c => c == '/')).reverse⟩

/-- `os.path.join(a, b)` (posixpath, two arguments). -/
def pathJoin (a b : String) : String :=
  if pyStartsWith b "/" then b
  else if a = "" ∨ pyEndsWith a "/" then a ++ b
  else a ++ "/" ++ b

/-- Python `s[n:]` on code points. -/
def pyDrop (s : String) (n : Nat) : String :=
  ⟨s.data.drop n⟩

/-- Python `cmd.split()`: split on whitespace, dropping empty pieces. -/
def pySplit (s : String) : List String :=
  ((splitOnP Char.isWhitespace s.data).filter (fun l => l ≠ [])).map (fun l => ⟨l⟩)

/-- Join strings with a single-space separator (Python `" ".join(cmd)`),
written structurally. -/
def joinSpace : List String → String
  | [] => ""
  | [x] => x
  | x :: y :: rest => x ++ " " ++ joinSpace (y :: rest)

/-- Helper for the substring test: does `needle` occur contiguously in the
list? -/
def occursIn (needle : List Char) : List Char → Bool
  | [] => needle.isEmpty
  | c :: rest => needle.isPrefixOf (c :: rest) || occursIn needle rest

/-- Python `sub in s` (substring test on code points). -/
def strContains (s sub : String) : Bool :=
  occursIn sub.data s.data

/-! ## JobManager (job_manager.py) -/

/-- The constants `JobManager.__init__` reads from the configuration.
`SSH_KEY_PATH` is optional (`config.get` may yield `None` or an empty string,
both falsy in Python). -/
structure JMConfig where
  FFMPEG_PATH : String
  RSYNC_PATH : String
  RSYNC_USER : String
  STORAGE_HOST : String
  ARCHIVE_ROOT_DIR : String
  SSH_KEY_PATH : Option String
  LOCAL_TEMP_DIR : String
  LOCAL_OUTPUT_DIR : String
deriving Repr, DecidableEq

/-- One ledger write performed through `update_job_status` during a run
(the observable sequence external pollers can see). -/
structure LedgerWrite where
  job_id : String
  status : String
  progress : Option Rat
  notes : Option String
deriving Repr, DecidableEq

/-- State threaded through a pipeline run: the ledger, the local file system
(set of existing paths), the sequence of ledger writes, the sequence of
external commands handed to `subprocess.run`, and the clock. -/
structure PipeState where
  db : DB
  fs : List String
  trace : List LedgerWrite
  calls : List (List String)
  clock : Nat
deriving Repr, DecidableEq

/-- A `db.update_job_status(...)` call made by the JobManager: updates the
table, records the write in the observable trace, and advances the clock. -/
def dbUpd (s : PipeState) (id status : String) (progress : Option Rat)
    (notes : Option String) : PipeState :=
  { s with
    db := updateJobStatus s.db id status progress notes s.clock,
    trace := s.trace ++ [⟨id, status, progress, notes⟩],
    clock := s.clock + 1 }

/-- Record one `subprocess.run(cmd, ...)` invocation. -/
def addCall (s : PipeState) (cmd : List String) : PipeState :=
  { s with calls := s.calls ++ [cmd] }

/-- Add a path to the file system (idempotent). -/
def fsAdd (fs : List String) (p : String) : List String :=
  if p ∈ fs then fs else fs ++ [p]

/-- Remove a path from the file system (`os.remove` / rename source). -/
def fsRemove (fs : List String) (p : String) : List String :=
  fs.filter (fun q => q != p)

/-- `JobManager._build_rsync_cmd`. -/
def buildRsyncCmd (cfg : JMConfig) (src dest : String) : List String :=
  let base := [cfg.RSYNC_PATH, "-az", "--partial", "--progress"]
  let withKey :=
    match cfg.SSH_KEY_PATH with
    | some k => if k ≠ "" then base ++ ["-e", "ssh -i " ++ k] else base
    | none => base
  withKey ++ [src, dest]

/-- The note written on an rsync stage failure (`_run_rsync_transfer`'s
`CalledProcessError` handler). -/
def rsyncFailNote (cfg : JMConfig) (stage_status src dest stderr : String) : String :=
  "RSYNC " ++ stage_status ++ " FAILED. Command: " ++
    joinSpace (buildRsyncCmd cfg src dest) ++ ". Error: " ++ stderr

/-- `JobManager._run_rsync_transfer`: writes the working status, runs rsync
(outcome supplied by the environment), then writes `_COMPLETE` on exit code 0
or `_FAILED` (with the command line and stderr in the note) otherwise.
Returns the Python function's boolean together with the resulting state. -/
def runRsyncTransfer (cfg : JMConfig) (s : PipeState) (job_id src dest stage_status : String)
    (r : ProcResult) : Bool × PipeState :=
  let s := dbUpd s job_id stage_status none (some ("Starting " ++ stage_status ++ " transfer."))
  let s := addCall s (buildRsyncCmd cfg src dest)
  if r.exitCode = 0 then
    (true, dbUpd s job_id (stage_status ++ "_COMPLETE") none
      (some (stage_status ++ " successful.")))
  else
    (false, dbUpd s job_id (stage_status ++ "_FAILED") none
      (some (rsyncFailNote cfg stage_status src dest r.stderr)))

/-- The ssh command built by `_run_remote_backup`. -/
def sshBackupCmd (cfg : JMConfig) (remote_file : String) : List String :=
  ["ssh", "-i", cfg.SSH_KEY_PATH.getD "", cfg.RSYNC_USER ++ "@" ++ cfg.STORAGE_HOST,
   "cp -f '" ++ remote_file ++ "' '" ++ cfg.ARCHIVE_ROOT_DIR ++ "/'"]

/-- The note written on a backup failure. -/
def backupFailNote (cfg : JMConfig) (remote_file stderr : String) : String :=
  "REMOTE BACKUP FAILED (SSH). Command: " ++
    joinSpace (sshBackupCmd cfg remote_file) ++ ". Error: " ++ stderr

/-- `JobManager._run_remote_backup`: runs `ssh ... "cp -f ..."`. On a non-zero
exit the `check=True` raises; on a zero exit with non-empty stderr the code
raises a synthetic `CalledProcessError` itself. Either way the handler writes
`BACKUP_SOURCE_FAILED` with the command and stderr in the note. Only a zero
exit with empty stderr writes `BACKUP_SOURCE_COMPLETE` (progress 100). -/
def runRemoteBackup (cfg : JMConfig) (s : PipeState) (job_id remote_file : String)
    (r : ProcResult) : Bool × PipeState :=
  let s := dbUpd s job_id "BACKUP_SOURCE" none (some "Executing remote copy command.")
  let s := addCall s (sshBackupCmd cfg remote_file)
  if r.exitCode = 0 then
    if r.stderr ≠ "" then
      (false, dbUpd s job_id "BACKUP_SOURCE_FAILED" none
        (some (backupFailNote cfg remote_file r.stderr)))
    else
      (true, dbUpd s job_id "BACKUP_SOURCE_COMPLETE" (some 100)
        (some "Remote backup successful (SSH cp)."))
  else
    (false, dbUpd s job_id "BACKUP_SOURCE_FAILED" none
      (some (backupFailNote cfg remote_file r.stderr)))

/-- The ffmpeg command line built by `_run_ffmpeg_conversion`. -/
def ffmpegCmd (cfg : JMConfig) (local_input command local_output : String) : List String :=
  [cfg.FFMPEG_PATH, "-i", local_input] ++ pySplit command ++ [local_output]

/-- `JobManager._run_ffmpeg_conversion`: writes `PROCESSING` (progress 0),
runs ffmpeg (the external process creates the output file or not, as the
environment dictates, independently of its exit code). On exit code 0 the
code first writes `PROCESSING_COMPLETE` (progress 100) and only then checks
that the output file exists, writing `PROCESSING_FAILED` and returning
failure when it does not. On a non-zero exit it writes `PROCESSING_FAILED`
with the exit code and stderr in the note. -/
def runFfmpegConversion (cfg : JMConfig) (s : PipeState)
    (job_id local_input local_output command : String)
    (r : ProcResult) (createsOutput : Bool) : Bool × PipeState :=
  let s := dbUpd s job_id "PROCESSING" (some 0) (some "Starting FFMPEG conversion.")
  let s := addCall s (ffmpegCmd cfg local_input command local_output)
  let s := if createsOutput then { s with fs := fsAdd s.fs local_output } else s
  if r.exitCode = 0 then
    let s := dbUpd s job_id "PROCESSING_COMPLETE" (some 100)
      (some "FFMPEG finished successfully.")
    if local_output ∈ s.fs then
      (true, s)
    else
      (false, dbUpd s job_id "PROCESSING_FAILED" none
        (some ("FFMPEG failed to create output file: FFMPEG reported success, but file was not found at "
          ++ local_output)))
  else
    (false, dbUpd s job_id "PROCESSING_FAILED" none
      (some ("FFMPEG EXECUTION FAILED. Command exited with code " ++ toString r.exitCode
        ++ ". STDERR: " ++ r.stderr)))

/-- The filename produced by `_get_final_remote_path`'s strip step: if the
base name begins with `"<job_id>_"`, the remainder; otherwise unchanged. -/
def finalName (job_id local_base_name : String) : String :=
  if pyStartsWith local_base_name (job_id ++ "_") then
    pyDrop local_base_name (job_id.length + 1)
  else
    local_base_name

/-- `JobManager._get_final_remote_path`. -/
def getFinalRemotePath (job_id remote_push_destination local_output_file : String) : String :=
  pathJoin remote_push_destination (finalName job_id (basename local_output_file))

/-! ## Pipeline path resolution (run_job_pipeline, lines 213-227) -/

/-- `local_temp_file = os.path.join(LOCAL_TEMP_DIR, basename(input_file))`. -/
def localTempFile (cfg : JMConfig) (input_file : String) : String :=
  pathJoin cfg.LOCAL_TEMP_DIR (basename input_file)

/-- `local_output_file_final = os.path.join(LOCAL_OUTPUT_DIR, basename(input_file))`. -/
def localOutputFileFinal (cfg : JMConfig) (input_file : String) : String :=
  pathJoin cfg.LOCAL_OUTPUT_DIR (basename input_file)

/-- `remote_pull_source = f"{RSYNC_USER}@{STORAGE_HOST}:{input_file}"`. -/
def remotePullSource (cfg : JMConfig) (input_file : String) : String :=
  cfg.RSYNC_USER ++ "@" ++ cfg.STORAGE_HOST ++ ":" ++ input_file

/-- `remote_push_destination_root = f"{RSYNC_USER}@{STORAGE_HOST}:{dirname(input_file)}"`. -/
def remotePushDestinationRoot (cfg : JMConfig) (input_file : String) : String :=
  cfg.RSYNC_USER ++ "@" ++ cfg.STORAGE_HOST ++ ":" ++ dirname input_file

/-- The outcomes of the external operations one pipeline run may invoke,
supplied by the environment: the pull/backup/transcode/push process results,
and whether the transcoder actually materialises its output file. -/
structure PipelineEnv where
  pull : ProcResult
  backup : ProcResult
  ffmpeg : ProcResult
  ffmpegCreatesOutput : Bool
  push : ProcResult
deriving Repr, DecidableEq

/-- `JobManager.run_job_pipeline`: load the job row (return untouched if
absent), resolve the paths, then run the four stages in order, stopping at
the first failure; between stages 3 and 4 rename the id-prefixed output to
the clean name (or record `PROCESSING_FAILED` if there is nothing to
rename); after stage 4, unless `skip_cleanup`, remove the local temp and
output files; finally mark the job `COMPLETED`. A successful pull
materialises the temp file locally. -/
def runJobPipeline (cfg : JMConfig) (s : PipeState) (job_id : String)
    (env : PipelineEnv) (skip_cleanup : Bool) : PipeState :=
  match getJob s.db job_id with
  | none => s
  | some job_data =>
    let remote_source_file := job_data.input_file
    let local_temp_file := localTempFile cfg remote_source_file
    let local_output_file_uuid := job_data.output_file
    let local_output_file_final := localOutputFileFinal cfg remote_source_file
    -- STAGE 1: PULL
    let r1 := runRsyncTransfer cfg s job_id (remotePullSource cfg remote_source_file)
      cfg.LOCAL_TEMP_DIR "TRANSFERRING_IN" env.pull
    if r1.1 = false then r1.2 else
    let s1 := { r1.2 with fs := fsAdd r1.2.fs local_temp_file }
    -- STAGE 2: BACKUP
    let r2 := runRemoteBackup cfg s1 job_id remote_source_file env.backup
    if r2.1 = false then r2.2 else
    -- STAGE 3: PROCESS
    let r3 := runFfmpegConversion cfg r2.2 job_id local_temp_file local_output_file_uuid
      job_data.ffmpeg_command env.ffmpeg env.ffmpegCreatesOutput
    if r3.1 = false then r3.2 else
    let s3 := r3.2
    -- INTERMEDIATE: rename the id-prefixed output to the clean name
    if local_output_file_uuid ∈ s3.fs then
      let s4 := { s3 with
        fs := fsAdd (fsRemove s3.fs local_output_file_uuid) local_output_file_final }
      -- STAGE 4: PUSH
      let r4 := runRsyncTransfer cfg s4 job_id local_output_file_final
        (remotePushDestinationRoot cfg remote_source_file) "TRANSFERRING_OUT" env.push
      if r4.1 = false then r4.2 else
      let s5 :=
        if skip_cleanup = false then
          { r4.2 with fs := fsRemove (fsRemove r4.2.fs local_temp_file) local_output_file_final }
        else r4.2
      dbUpd s5 job_id "COMPLETED" none (some "All stages successful.")
    else
      dbUpd s3 job_id "PROCESSING_FAILED" none
        (some "FFMPEG did not create output file for rename.")

/-- The statuses of the writes in a trace, in order. -/
def traceStatuses (s : PipeState) : List String :=
  s.trace.map (fun w => w.status)

/-! ## Concrete fixtures (mirroring the test fixtures in tests/ffmpeg_tools) -/

/-- A concrete configuration, as in the test fixtures. -/
def cfgEx : JMConfig :=
  { FFMPEG_PATH := "/usr/bin/ffmpeg", RSYNC_PATH := "/usr/bin/rsync",
    RSYNC_USER := "test_user", STORAGE_HOST := "192.168.0.1",
    ARCHIVE_ROOT_DIR := "/archive", SSH_KEY_PATH := some "/key",
    LOCAL_TEMP_DIR := "/tmp/t", LOCAL_OUTPUT_DIR := "/tmp/o" }

/-- A freshly created job row: remote source `/remote/media/movie.mkv`,
id-prefixed output `/tmp/o/j1_movie.mp4`. -/
def rowEx : JobRow :=
  { job_id := "j1", status := "SUBMITTED", input_file := "/remote/media/movie.mkv",
    output_file := "/tmp/o/j1_movie.mp4", ffmpeg_command := "-c:v copy",
    rsync_user_host := none, progress_percent := 0, last_updated := 0, notes := none }

/-- Initial pipeline state: the ledger holds `rowEx`, nothing else happened. -/
def s0Ex : PipeState := { db := [rowEx], fs := [], trace := [], calls := [], clock := 1 }

/-- A process outcome with exit code 0 and empty stderr. -/
def okP : ProcResult := ⟨0, "out", ""⟩

/-- All four operations succeed and the transcoder creates its output. -/
def envAllOk : PipelineEnv := ⟨okP, okP, okP, true, okP⟩

/-- All processes exit 0 but the transcoder does not create its output file. -/
def envNoFile : PipelineEnv := ⟨okP, okP, okP, false, okP⟩

/-- The pull transfer fails with exit code 1 and stderr "Connection Refused". -/
def envPullFail : PipelineEnv := ⟨⟨1, "", "Connection Refused"⟩, okP, okP, true, okP⟩

/-- The backup processes exits 0 but reports an error on stderr. -/
def envBackupStderr : PipelineEnv := ⟨okP, ⟨0, "", "cp: cannot stat"⟩, okP, true, okP⟩

/-! ## Helper lemmas -/

@[simp] theorem applyUpd_job_id (r : JobRow) (st : String) (p : Option Rat)
    (n : Option String) (now : Nat) : (applyUpd r st p n now).job_id = r.job_id := rfl

@[simp] theorem dbUpd_trace (s : PipeState) (id st : String) (p : Option Rat)
    (n : Option String) : (dbUpd s id st p n).trace = s.trace ++ [⟨id, st, p, n⟩] := rfl

@[simp] theorem dbUpd_calls (s : PipeState) (id st : String) (p : Option Rat)
    (n : Option String) : (dbUpd s id st p n).calls = s.calls := rfl

@[simp] theorem dbUpd_fs (s : PipeState) (id st : String) (p : Option Rat)
    (n : Option String) : (dbUpd s id st p n).fs = s.fs := rfl

@[simp] theorem dbUpd_db (s : PipeState) (id st : String) (p : Option Rat)
    (n : Option String) :
    (dbUpd s id st p n).db = updateJobStatus s.db id st p n s.clock := rfl

@[simp] theorem addCall_trace (s : PipeState) (c : List String) :
    (addCall s c).trace = s.trace := rfl

@[simp] theorem addCall_calls (s : PipeState) (c : List String) :
    (addCall s c).calls = s.calls ++ [c] := rfl

@[simp] theorem addCall_fs (s : PipeState) (c : List String) : (addCall s c).fs = s.fs := rfl

@[simp] theorem addCall_db (s : PipeState) (c : List String) : (addCall s c).db = s.db := rfl

@[simp] theorem mem_fsAdd (l : List String) (p a : String) :
    a ∈ fsAdd l p ↔ a ∈ l ∨ a = p := by
  by_cases h : p ∈ l
  · simp only [fsAdd, if_pos h]
    exact ⟨Or.inl, fun hc => hc.elim (fun ha => ha) (fun e => e ▸ h)⟩
  · simp [fsAdd, if_neg h]

@[simp] theorem mem_fsRemove (l : List String) (p a : String) :
    a ∈ fsRemove l p ↔ a ∈ l ∧ a ≠ p := by
  simp [fsRemove, List.mem_filter, bne_iff_ne]

/-- Updating an id rewrites exactly the row found for that id. -/
@[simp] theorem getJob_updateJobStatus_self (db : DB) (id st : String) (p : Option Rat)
    (n : Option String) (now : Nat) :
    getJob (updateJobStatus db id st p n now) id
      = (getJob db id).map (fun r => applyUpd r st p n now) := by
  induction db with
  | nil => rfl
  | cons r rest ih =>
    by_cases h : r.job_id = id
    · simp [updateJobStatus, getJob, h]
    · simp only [updateJobStatus, getJob] at ih ⊢
      simpa [h] using ih

/-- Updating one id leaves every other id's row unchanged. -/
theorem getJob_updateJobStatus_other (db : DB) (id id' st : String) (p : Option Rat)
    (n : Option String) (now : Nat) (hne : id' ≠ id) :
    getJob (updateJobStatus db id st p n now) id' = getJob db id' := by
  induction db with
  | nil => rfl
  | cons r rest ih =>
    simp only [updateJobStatus, getJob, List.map_cons] at ih ⊢
    by_cases h : r.job_id = id'
    · have hid : r.job_id ≠ id := fun hc => hne (h ▸ hc)
      rw [if_neg (by simp [hid])]
      rw [List.find?_cons_of_pos (p := fun x => x.job_id == id') rest (by simp [h]),
          List.find?_cons_of_pos (p := fun x => x.job_id == id')
            (rest.map fun x => if (x.job_id == id) = true then applyUpd x st p n now else x)
            (by simp [h])]
    · by_cases hid : r.job_id = id
      · rw [if_pos (by simp [hid])]
        rw [List.find?_cons_of_neg (p := fun x => x.job_id == id')
              (rest.map fun x => if (x.job_id == id) = true then applyUpd x st p n now else x)
              (by simp [hid]; exact fun hc => hne hc.symm),
            List.find?_cons_of_neg (p := fun x => x.job_id == id') rest (by simp [h])]
        exact ih
      · rw [if_neg (by simp [hid])]
        rw [List.find?_cons_of_neg (p := fun x => x.job_id == id')
              (rest.map fun x => if (x.job_id == id) = true then applyUpd x st p n now else x)
              (by simp [h]),
            List.find?_cons_of_neg (p := fun x => x.job_id == id') rest (by simp [h])]
        exact ih

/-- An UPDATE whose WHERE clause matches no row leaves the table unchanged. -/
theorem updateJobStatus_absent (db : DB) (id st : String) (p : Option Rat)
    (n : Option String) (now : Nat) (h : getJob db id = none) :
    updateJobStatus db id st p n now = db := by
  induction db with
  | nil => rfl
  | cons r rest ih =>
    simp only [getJob, List.find?_eq_none] at h
    have hr : r.job_id ≠ id := by simpa using h r (List.mem_cons_self r rest)
    have hrest : getJob rest id = none := by
      simp only [getJob, List.find?_eq_none]
      exact fun x hx => h x (List.mem_cons_of_mem r hx)
    have hmap := ih hrest
    simp only [updateJobStatus, List.map_cons] at hmap ⊢
    rw [if_neg (by simp [hr]), hmap]

/-! ## Claim theorems -/

/-- C1: the claim says the status sequence follows only edges of the state
graph, and in particular that a `<STAGE>_COMPLETE` write is never followed by
a `<STAGE>_FAILED` write for the same stage. The code violates this:
`_run_ffmpeg_conversion` writes `PROCESSING_COMPLETE` before checking that
the output file exists, so when the transcoder exits 0 without creating its
output the observable ledger sequence contains `PROCESSING_COMPLETE`
immediately followed by `PROCESSING_FAILED`. This theorem evaluates the
pipeline at that failing input and exhibits the offending sequence. -/
theorem C1_complete_then_failed_trace :
    traceStatuses (runJobPipeline cfgEx s0Ex "j1" envNoFile false)
      = ["TRANSFERRING_IN", "TRANSFERRING_IN_COMPLETE", "BACKUP_SOURCE",
         "BACKUP_SOURCE_COMPLETE", "PROCESSING", "PROCESSING_COMPLETE",
         "PROCESSING_FAILED"] := by
  decide

/-- C5 counterexample: the claim says `update` on an absent id fails with a
`JobNotFound` error. On the empty ledger with absent id "j1" the spec-modelled
contract (`updateSpec`) indeed errors, but the code (`updateJobStatus`,
executing an UPDATE whose WHERE clause matches no row) returns normally with
the ledger unchanged — it does not fail. -/
theorem C5_claim_counterexample :
    getJob ([] : DB) "j1" = none ∧
    updateSpec ([] : DB) "j1" "PROCESSING" none none 0 = Except.error "JobNotFound" ∧
    updateJobStatus ([] : DB) "j1" "PROCESSING" none none 0 = ([] : DB) :=
  ⟨rfl, rfl, rfl⟩

/-- C5 (amended): calling `update` with an id absent from the Job Ledger is a
silent no-op: no error is raised, the table is unchanged, and in particular no
row is created for the id. -/
theorem C5_update_absent_silent_noop (db : DB) (id st : String) (p : Option Rat)
    (n : Option String) (now : Nat) (h : getJob db id = none) :
    updateJobStatus db id st p n now = db ∧
    getJob (updateJobStatus db id st p n now) id = none := by
  refine ⟨updateJobStatus_absent db id st p n now h, ?_⟩
  rw [updateJobStatus_absent db id st p n now h]
  exact h

/-- C5 witness: the amended statement at a concrete absent id. -/
theorem C5_witness :
    updateJobStatus [rowEx] "missing" "X" none none 5 = [rowEx] ∧
    getJob (updateJobStatus [rowEx] "missing" "X" none none 5) "missing" = none :=
  C5_update_absent_silent_noop [rowEx] "missing" "X" none none 5 rfl

/-- C7: when all four stages succeed, the run ends with the job's ledger row
at status `COMPLETED` and progress 100 (set by the `PROCESSING_COMPLETE`
update and untouched afterwards) whatever the skip-cleanup flag is; and
unless the skip-cleanup flag was set, neither the local temp file nor the
local output file exists afterwards. -/
theorem C7_full_success (cfg : JMConfig) (s0 : PipeState) (id : String) (job : JobRow)
    (env : PipelineEnv) (sk : Bool)
    (hjob : getJob s0.db id = some job)
    (h1 : env.pull.exitCode = 0)
    (h2 : env.backup.exitCode = 0) (h2s : env.backup.stderr = "")
    (h3 : env.ffmpeg.exitCode = 0) (h3c : env.ffmpegCreatesOutput = true)
    (h4 : env.push.exitCode = 0) :
    (∃ row, getJob (runJobPipeline cfg s0 id env sk).db id = some row ∧
      row.status = "COMPLETED" ∧ row.progress_percent = 100) ∧
    (sk = false →
      localTempFile cfg job.input_file ∉ (runJobPipeline cfg s0 id env sk).fs ∧
      localOutputFileFinal cfg job.input_file ∉ (runJobPipeline cfg s0 id env sk).fs) := by
  constructor
  · cases sk <;>
      (simp only [runJobPipeline, hjob]
       simp [runRsyncTransfer, runRemoteBackup, runFfmpegConversion, h1, h2, h2s, h3, h3c, h4,
         hjob, applyUpd])
  · intro hsk
    subst hsk
    simp only [runJobPipeline, hjob]
    simp [runRsyncTransfer, runRemoteBackup, runFfmpegConversion, h1, h2, h2s, h3, h3c, h4,
      hjob, applyUpd]

/-- C7 witness: the fully successful run on the concrete fixtures, once with
cleanup enabled (files absent afterwards) and once with the skip-cleanup flag
set (final status and progress unchanged by the flag). -/
theorem C7_witness :
    ((∃ row, getJob (runJobPipeline cfgEx s0Ex "j1" envAllOk false).db "j1" = some row ∧
      row.status = "COMPLETED" ∧ row.progress_percent = 100) ∧
     localTempFile cfgEx rowEx.input_file ∉ (runJobPipeline cfgEx s0Ex "j1" envAllOk false).fs ∧
     localOutputFileFinal cfgEx rowEx.input_file
       ∉ (runJobPipeline cfgEx s0Ex "j1" envAllOk false).fs) ∧
    (∃ row, getJob (runJobPipeline cfgEx s0Ex "j1" envAllOk true).db "j1" = some row ∧
      row.status = "COMPLETED" ∧ row.progress_percent = 100) := by
  have hoff := C7_full_success cfgEx s0Ex "j1" rowEx envAllOk false rfl rfl rfl rfl rfl rfl rfl
  have hon := C7_full_success cfgEx s0Ex "j1" rowEx envAllOk true rfl rfl rfl rfl rfl rfl rfl
  exact ⟨⟨hoff.1, hoff.2 rfl⟩, hon.1⟩

/-- C9: `update` on an existing row overwrites exactly the supplied fields and
refreshes `last_updated`; an omitted progress or notes argument leaves that
field unchanged, and no update ever modifies `job_id`, `input_file`,
`output_file` or `ffmpeg_command` (the conversion spec) of any row; rows with
other ids are untouched. -/
theorem C9_update_exact_fields (db : DB) (id st : String) (p : Option Rat)
    (n : Option String) (now : Nat) (r : JobRow) (hr : getJob db id = some r) :
    getJob (updateJobStatus db id st p n now) id = some (applyUpd r st p n now) ∧
    (applyUpd r st p n now).status = st ∧
    (applyUpd r st p n now).last_updated = now ∧
    (p = none → (applyUpd r st p n now).progress_percent = r.progress_percent) ∧
    (n = none → (applyUpd r st p n now).notes = r.notes) ∧
    (∀ row ∈ updateJobStatus db id st p n now, ∃ row₀ ∈ db,
      row.job_id = row₀.job_id ∧ row.input_file = row₀.input_file ∧
      row.output_file = row₀.output_file ∧ row.ffmpeg_command = row₀.ffmpeg_command) ∧
    (∀ id', id' ≠ id → getJob (updateJobStatus db id st p n now) id' = getJob db id') := by
  refine ⟨?_, rfl, rfl, ?_, ?_, ?_, ?_⟩
  · rw [getJob_updateJobStatus_self, hr]
    rfl
  · intro hp
    simp [applyUpd, hp]
  · intro hn
    simp [applyUpd, hn]
  · intro row hrow
    simp only [updateJobStatus, List.mem_map] at hrow
    obtain ⟨r₀, hr₀, rfl⟩ := hrow
    by_cases hb : (r₀.job_id == id) = true
    · exact ⟨r₀, hr₀, by simp [hb, applyUpd]⟩
    · exact ⟨r₀, hr₀, by simp [hb]⟩
  · intro id' hne
    exact getJob_updateJobStatus_other db id id' st p n now hne

/-- C9 witness: a status-only update at concrete values. -/
theorem C9_witness :
    getJob (updateJobStatus [rowEx] "j1" "PROCESSING" none none 7) "j1"
      = some (applyUpd rowEx "PROCESSING" none none 7) ∧
    (applyUpd rowEx "PROCESSING" none none 7).status = "PROCESSING" ∧
    (applyUpd rowEx "PROCESSING" none none 7).last_updated = 7 := by
  have h := C9_update_exact_fields [rowEx] "j1" "PROCESSING" none none 7 rowEx rfl
  exact ⟨h.1, h.2.1, h.2.2.1⟩

/-- C10: `create` of a fresh id inserts a row that `get` immediately returns
with status `SUBMITTED` and progress 0, and `create` of an id already present
fails with the duplicate-key (`IntegrityError`) error. -/
theorem C10_create_get (db : DB) (id inp out cmd : String) (now : Nat) :
    (getJob db id = none →
      createJob db id inp out cmd now = Except.ok (db ++ [newJobRow id inp out cmd now]) ∧
      getJob (db ++ [newJobRow id inp out cmd now]) id = some (newJobRow id inp out cmd now) ∧
      (newJobRow id inp out cmd now).status = "SUBMITTED" ∧
      (newJobRow id inp out cmd now).progress_percent = 0) ∧
    ((getJob db id).isSome = true →
      createJob db id inp out cmd now
        = Except.error "sqlite3.IntegrityError: UNIQUE constraint failed: conversion_jobs.job_id") := by
  constructor
  · intro h
    refine ⟨by simp [createJob, h], ?_, rfl, rfl⟩
    simp only [getJob] at h ⊢
    rw [List.find?_append, h]
    simp [newJobRow]
  · intro h
    simp [createJob, h]

/-- C10 witness: create-then-get on an empty ledger, and a duplicate create. -/
theorem C10_witness :
    createJob [] "j1" "/remote/media/movie.mkv" "/tmp/o/j1_movie.mp4" "-c:v copy" 0
      = Except.ok [newJobRow "j1" "/remote/media/movie.mkv" "/tmp/o/j1_movie.mp4" "-c:v copy" 0] ∧
    getJob [newJobRow "j1" "/remote/media/movie.mkv" "/tmp/o/j1_movie.mp4" "-c:v copy" 0] "j1"
      = some (newJobRow "j1" "/remote/media/movie.mkv" "/tmp/o/j1_movie.mp4" "-c:v copy" 0) ∧
    createJob [rowEx] "j1" "/in" "/out" "-c:v copy" 3
      = Except.error "sqlite3.IntegrityError: UNIQUE constraint failed: conversion_jobs.job_id" := by
  have h1 := (C10_create_get [] "j1" "/remote/media/movie.mkv" "/tmp/o/j1_movie.mp4" "-c:v copy" 0).1 rfl
  have h2 := (C10_create_get [rowEx] "j1" "/in" "/out" "-c:v copy" 3).2 rfl
  exact ⟨h1.1, h1.2.1, h2⟩

/-- C2: if stage k fails, the run halts with final ledger status
`<stage k>_FAILED`: the write trace stops inside stage k (no status of any
later stage is written, in particular never `COMPLETED`), exactly the external
operations of stages 1..k were invoked, and the job's row ends at the failed
status — with, for a pull failure, the failing command line and the process's
stderr in the notes. The five cases cover each stage's failure modes. -/
theorem C2_fail_fast (cfg : JMConfig) (s0 : PipeState) (id : String) (job : JobRow)
    (env : PipelineEnv) (sk : Bool)
    (hjob : getJob s0.db id = some job) (ht : s0.trace = []) (hc : s0.calls = []) :
    (env.pull.exitCode ≠ 0 →
      traceStatuses (runJobPipeline cfg s0 id env sk)
        = ["TRANSFERRING_IN", "TRANSFERRING_IN_FAILED"] ∧
      (runJobPipeline cfg s0 id env sk).calls
        = [buildRsyncCmd cfg (remotePullSource cfg job.input_file) cfg.LOCAL_TEMP_DIR] ∧
      (∃ row, getJob (runJobPipeline cfg s0 id env sk).db id = some row ∧
        row.status = "TRANSFERRING_IN_FAILED" ∧
        row.notes = some (rsyncFailNote cfg "TRANSFERRING_IN"
          (remotePullSource cfg job.input_file) cfg.LOCAL_TEMP_DIR env.pull.stderr))) ∧
    (env.pull.exitCode = 0 → ¬(env.backup.exitCode = 0 ∧ env.backup.stderr = "") →
      traceStatuses (runJobPipeline cfg s0 id env sk)
        = ["TRANSFERRING_IN", "TRANSFERRING_IN_COMPLETE", "BACKUP_SOURCE",
           "BACKUP_SOURCE_FAILED"] ∧
      (runJobPipeline cfg s0 id env sk).calls
        = [buildRsyncCmd cfg (remotePullSource cfg job.input_file) cfg.LOCAL_TEMP_DIR,
           sshBackupCmd cfg job.input_file] ∧
      (∃ row, getJob (runJobPipeline cfg s0 id env sk).db id = some row ∧
        row.status = "BACKUP_SOURCE_FAILED")) ∧
    (env.pull.exitCode = 0 → env.backup.exitCode = 0 → env.backup.stderr = "" →
     env.ffmpeg.exitCode ≠ 0 →
      traceStatuses (runJobPipeline cfg s0 id env sk)
        = ["TRANSFERRING_IN", "TRANSFERRING_IN_COMPLETE", "BACKUP_SOURCE",
           "BACKUP_SOURCE_COMPLETE", "PROCESSING", "PROCESSING_FAILED"] ∧
      (runJobPipeline cfg s0 id env sk).calls
        = [buildRsyncCmd cfg (remotePullSource cfg job.input_file) cfg.LOCAL_TEMP_DIR,
           sshBackupCmd cfg job.input_file,
           ffmpegCmd cfg (localTempFile cfg job.input_file) job.ffmpeg_command job.output_file] ∧
      (∃ row, getJob (runJobPipeline cfg s0 id env sk).db id = some row ∧
        row.status = "PROCESSING_FAILED")) ∧
    (env.pull.exitCode = 0 → env.backup.exitCode = 0 → env.backup.stderr = "" →
     env.ffmpeg.exitCode = 0 → env.ffmpegCreatesOutput = false →
     job.output_file ∉ s0.fs → job.output_file ≠ localTempFile cfg job.input_file →
      traceStatuses (runJobPipeline cfg s0 id env sk)
        = ["TRANSFERRING_IN", "TRANSFERRING_IN_COMPLETE", "BACKUP_SOURCE",
           "BACKUP_SOURCE_COMPLETE", "PROCESSING", "PROCESSING_COMPLETE",
           "PROCESSING_FAILED"] ∧
      (runJobPipeline cfg s0 id env sk).calls
        = [buildRsyncCmd cfg (remotePullSource cfg job.input_file) cfg.LOCAL_TEMP_DIR,
           sshBackupCmd cfg job.input_file,
           ffmpegCmd cfg (localTempFile cfg job.input_file) job.ffmpeg_command job.output_file] ∧
      (∃ row, getJob (runJobPipeline cfg s0 id env sk).db id = some row ∧
        row.status = "PROCESSING_FAILED")) ∧
    (env.pull.exitCode = 0 → env.backup.exitCode = 0 → env.backup.stderr = "" →
     env.ffmpeg.exitCode = 0 → env.ffmpegCreatesOutput = true → env.push.exitCode ≠ 0 →
      traceStatuses (runJobPipeline cfg s0 id env sk)
        = ["TRANSFERRING_IN", "TRANSFERRING_IN_COMPLETE", "BACKUP_SOURCE",
           "BACKUP_SOURCE_COMPLETE", "PROCESSING", "PROCESSING_COMPLETE",
           "TRANSFERRING_OUT", "TRANSFERRING_OUT_FAILED"] ∧
      (runJobPipeline cfg s0 id env sk).calls
        = [buildRsyncCmd cfg (remotePullSource cfg job.input_file) cfg.LOCAL_TEMP_DIR,
           sshBackupCmd cfg job.input_file,
           ffmpegCmd cfg (localTempFile cfg job.input_file) job.ffmpeg_command job.output_file,
           buildRsyncCmd cfg (localOutputFileFinal cfg job.input_file)
             (remotePushDestinationRoot cfg job.input_file)] ∧
      (∃ row, getJob (runJobPipeline cfg s0 id env sk).db id = some row ∧
        row.status = "TRANSFERRING_OUT_FAILED")) := by
  refine ⟨?_, ?_, ?_, ?_, ?_⟩
  · intro h1
    simp only [runJobPipeline, hjob]
    simp [runRsyncTransfer, traceStatuses, h1, ht, hc, hjob, applyUpd]
  · intro h1 h2
    simp only [runJobPipeline, hjob]
    by_cases hb : env.backup.exitCode = 0
    · have hs : env.backup.stderr ≠ "" := fun he => h2 ⟨hb, he⟩
      simp [runRsyncTransfer, runRemoteBackup, traceStatuses, h1, hb, hs, ht, hc, hjob, applyUpd]
    · simp [runRsyncTransfer, runRemoteBackup, traceStatuses, h1, hb, ht, hc, hjob, applyUpd]
  · intro h1 h2 h2s h3
    simp only [runJobPipeline, hjob]
    cases hco : env.ffmpegCreatesOutput <;>
      simp [runRsyncTransfer, runRemoteBackup, runFfmpegConversion, traceStatuses,
        h1, h2, h2s, h3, hco, ht, hc, hjob, applyUpd]
  · intro h1 h2 h2s h3 h3c hout hne
    simp only [runJobPipeline, hjob]
    simp [runRsyncTransfer, runRemoteBackup, runFfmpegConversion, traceStatuses,
      h1, h2, h2s, h3, h3c, hout, hne, ht, hc, hjob, applyUpd]
  · intro h1 h2 h2s h3 h3c h4
    simp only [runJobPipeline, hjob]
    simp [runRsyncTransfer, runRemoteBackup, runFfmpegConversion, traceStatuses,
      h1, h2, h2s, h3, h3c, h4, ht, hc, hjob, applyUpd]

/-- C2 witness: the claim's concrete scenario — the pull process exits 1 with
stderr "Connection Refused"; the run stops after the two stage-1 writes, only
the pull command was invoked, and the final row is `TRANSFERRING_IN_FAILED`
with "Connection Refused" in the notes. -/
theorem C2_witness :
    traceStatuses (runJobPipeline cfgEx s0Ex "j1" envPullFail false)
      = ["TRANSFERRING_IN", "TRANSFERRING_IN_FAILED"] ∧
    (runJobPipeline cfgEx s0Ex "j1" envPullFail false).calls
      = [buildRsyncCmd cfgEx (remotePullSource cfgEx rowEx.input_file) cfgEx.LOCAL_TEMP_DIR] ∧
    (∃ row, getJob (runJobPipeline cfgEx s0Ex "j1" envPullFail false).db "j1" = some row ∧
      row.status = "TRANSFERRING_IN_FAILED" ∧
      strContains (row.notes.getD "") "Connection Refused" = true) := by
  obtain ⟨htr, hcalls, row, hrow, hst, hnotes⟩ :=
    (C2_fail_fast cfgEx s0Ex "j1" rowEx envPullFail false rfl rfl rfl).1 (by decide)
  refine ⟨htr, hcalls, row, hrow, hst, ?_⟩
  rw [hnotes]
  decide

/-- C3: a transcode that exits 0 without creating its output file halts the
pipeline with final ledger status `PROCESSING_FAILED` (no transfer-out is
invoked), and in general `_run_ffmpeg_conversion` returns success only if the
process exited 0 and the expected output file exists afterwards. -/
theorem C3_transcode_requires_output (cfg : JMConfig) (s0 : PipeState) (id : String)
    (job : JobRow) (env : PipelineEnv) (sk : Bool)
    (hjob : getJob s0.db id = some job) (ht : s0.trace = []) (hc : s0.calls = [])
    (h1 : env.pull.exitCode = 0)
    (h2 : env.backup.exitCode = 0) (h2s : env.backup.stderr = "")
    (h3 : env.ffmpeg.exitCode = 0) (h3c : env.ffmpegCreatesOutput = false)
    (hout : job.output_file ∉ s0.fs)
    (hne : job.output_file ≠ localTempFile cfg job.input_file) :
    traceStatuses (runJobPipeline cfg s0 id env sk)
      = ["TRANSFERRING_IN", "TRANSFERRING_IN_COMPLETE", "BACKUP_SOURCE",
         "BACKUP_SOURCE_COMPLETE", "PROCESSING", "PROCESSING_COMPLETE",
         "PROCESSING_FAILED"] ∧
    (∃ row, getJob (runJobPipeline cfg s0 id env sk).db id = some row ∧
      row.status = "PROCESSING_FAILED") ∧
    (runJobPipeline cfg s0 id env sk).calls
      = [buildRsyncCmd cfg (remotePullSource cfg job.input_file) cfg.LOCAL_TEMP_DIR,
         sshBackupCmd cfg job.input_file,
         ffmpegCmd cfg (localTempFile cfg job.input_file) job.ffmpeg_command job.output_file] ∧
    (∀ (s : PipeState) (jid inp out cmd : String) (r : ProcResult) (co : Bool),
      (runFfmpegConversion cfg s jid inp out cmd r co).1 = true →
        r.exitCode = 0 ∧ out ∈ (runFfmpegConversion cfg s jid inp out cmd r co).2.fs) := by
  refine ⟨?_, ?_, ?_, ?_⟩
  · simp only [runJobPipeline, hjob]
    simp [runRsyncTransfer, runRemoteBackup, runFfmpegConversion, traceStatuses,
      h1, h2, h2s, h3, h3c, hout, hne, ht, hjob, applyUpd]
  · simp only [runJobPipeline, hjob]
    simp [runRsyncTransfer, runRemoteBackup, runFfmpegConversion,
      h1, h2, h2s, h3, h3c, hout, hne, hjob, applyUpd]
  · simp only [runJobPipeline, hjob]
    simp [runRsyncTransfer, runRemoteBackup, runFfmpegConversion,
      h1, h2, h2s, h3, h3c, hout, hne, hc, hjob, applyUpd]
  · intro s jid inp out cmd r co h
    simp only [runFfmpegConversion] at h ⊢
    split_ifs at h ⊢ <;> simp_all

/-- C3 witness: the concrete exit-0/no-output scenario on the fixtures. -/
theorem C3_witness :
    traceStatuses (runJobPipeline cfgEx s0Ex "j1" envNoFile false)
      = ["TRANSFERRING_IN", "TRANSFERRING_IN_COMPLETE", "BACKUP_SOURCE",
         "BACKUP_SOURCE_COMPLETE", "PROCESSING", "PROCESSING_COMPLETE",
         "PROCESSING_FAILED"] ∧
    (∃ row, getJob (runJobPipeline cfgEx s0Ex "j1" envNoFile false).db "j1" = some row ∧
      row.status = "PROCESSING_FAILED") := by
  have h := C3_transcode_requires_output cfgEx s0Ex "j1" rowEx envNoFile false
    rfl rfl rfl rfl rfl rfl rfl rfl (by decide) (by decide)
  exact ⟨h.1, h.2.1⟩

/-- C4: the remote-copy backup reports success iff the process exited 0 with
empty stderr; on a zero exit with non-empty stderr it reports failure and the
ledger write is `BACKUP_SOURCE_FAILED` with the ssh command line and the
stderr text in the note. -/
theorem C4_backup_success_criterion (cfg : JMConfig) (s : PipeState) (id f : String)
    (r : ProcResult) :
    ((runRemoteBackup cfg s id f r).1 = true ↔ (r.exitCode = 0 ∧ r.stderr = "")) ∧
    (r.exitCode = 0 → r.stderr ≠ "" →
      (runRemoteBackup cfg s id f r).1 = false ∧
      (runRemoteBackup cfg s id f r).2.trace
        = s.trace ++ [⟨id, "BACKUP_SOURCE", none, some "Executing remote copy command."⟩,
                      ⟨id, "BACKUP_SOURCE_FAILED", none, some (backupFailNote cfg f r.stderr)⟩]) := by
  constructor
  · by_cases hr : r.exitCode = 0 <;> by_cases hs : r.stderr = "" <;>
      simp [runRemoteBackup, hr, hs]
  · intro hr hs
    simp [runRemoteBackup, hr, hs]

/-- C4 witness: exit code 0 with non-empty stderr is a failure, and the note
contains both the command line and the stderr text. -/
theorem C4_witness :
    (runRemoteBackup cfgEx s0Ex "j1" "/remote/media/movie.mkv" ⟨0, "", "cp: cannot stat"⟩).1
      = false ∧
    strContains (backupFailNote cfgEx "/remote/media/movie.mkv" "cp: cannot stat")
      "cp: cannot stat" = true ∧
    strContains (backupFailNote cfgEx "/remote/media/movie.mkv" "cp: cannot stat")
      (joinSpace (sshBackupCmd cfgEx "/remote/media/movie.mkv")) = true := by
  refine ⟨((C4_backup_success_criterion cfgEx s0Ex "j1" "/remote/media/movie.mkv"
    ⟨0, "", "cp: cannot stat"⟩).2 rfl (by decide)).1, by decide, by decide⟩

/-- C6: in a successful run the post-transcode rename target and the
transfer-out source are both `LOCAL_OUTPUT_DIR/basename(input_file)`,
whatever the job's `output_file` is: the clean-named file is present in the
local output directory (rename target), the uuid-prefixed `output_file` is
gone, and the fourth external command (the push) reads from
`localOutputFileFinal`, built from the input file's base name. -/
theorem C6_rename_and_push_use_input_basename (cfg : JMConfig) (s0 : PipeState)
    (id : String) (job : JobRow) (env : PipelineEnv)
    (hjob : getJob s0.db id = some job) (hc : s0.calls = [])
    (h1 : env.pull.exitCode = 0)
    (h2 : env.backup.exitCode = 0) (h2s : env.backup.stderr = "")
    (h3 : env.ffmpeg.exitCode = 0) (h3c : env.ffmpegCreatesOutput = true)
    (h4 : env.push.exitCode = 0) :
    localOutputFileFinal cfg job.input_file
      = pathJoin cfg.LOCAL_OUTPUT_DIR (basename job.input_file) ∧
    (runJobPipeline cfg s0 id env true).calls
      = [buildRsyncCmd cfg (remotePullSource cfg job.input_file) cfg.LOCAL_TEMP_DIR,
         sshBackupCmd cfg job.input_file,
         ffmpegCmd cfg (localTempFile cfg job.input_file) job.ffmpeg_command job.output_file,
         buildRsyncCmd cfg (localOutputFileFinal cfg job.input_file)
           (remotePushDestinationRoot cfg job.input_file)] ∧
    localOutputFileFinal cfg job.input_file ∈ (runJobPipeline cfg s0 id env true).fs ∧
    (job.output_file ≠ localOutputFileFinal cfg job.input_file →
      job.output_file ∉ (runJobPipeline cfg s0 id env true).fs) := by
  refine ⟨rfl, ?_, ?_, ?_⟩
  · simp only [runJobPipeline, hjob]
    simp [runRsyncTransfer, runRemoteBackup, runFfmpegConversion,
      h1, h2, h2s, h3, h3c, h4, hc, hjob, applyUpd]
  · simp only [runJobPipeline, hjob]
    simp [runRsyncTransfer, runRemoteBackup, runFfmpegConversion,
      h1, h2, h2s, h3, h3c, h4, hjob, applyUpd]
  · intro hne
    simp only [runJobPipeline, hjob]
    simp [runRsyncTransfer, runRemoteBackup, runFfmpegConversion,
      h1, h2, h2s, h3, h3c, h4, hne, hjob, applyUpd]

/-- C6 witness: on the fixtures the stripped output name ("movie.mp4", from
`output_file = /tmp/o/j1_movie.mp4`) differs from the input base name
("movie.mkv"), yet the push command's source is `/tmp/o/movie.mkv` — the
input file's base name, not the stripped output name. -/
theorem C6_witness :
    (runJobPipeline cfgEx s0Ex "j1" envAllOk true).calls
      = [buildRsyncCmd cfgEx (remotePullSource cfgEx rowEx.input_file) cfgEx.LOCAL_TEMP_DIR,
         sshBackupCmd cfgEx rowEx.input_file,
         ffmpegCmd cfgEx (localTempFile cfgEx rowEx.input_file) rowEx.ffmpeg_command
           rowEx.output_file,
         buildRsyncCmd cfgEx (localOutputFileFinal cfgEx rowEx.input_file)
           (remotePushDestinationRoot cfgEx rowEx.input_file)] ∧
    localOutputFileFinal cfgEx rowEx.input_file = "/tmp/o/movie.mkv" ∧
    finalName "j1" (basename rowEx.output_file) = "movie.mp4" ∧
    basename rowEx.input_file = "movie.mkv" := by
  refine ⟨(C6_rename_and_push_use_input_basename cfgEx s0Ex "j1" rowEx envAllOk
    rfl rfl rfl rfl rfl rfl rfl rfl).2.1, by decide, by decide, by decide⟩

/-- C8: the strip-prefix step of `_get_final_remote_path` returns the
remainder after `"<id>_"` when the filename begins with that prefix and the
filename unchanged otherwise; concretely "abc123_movie.mp4" resolves to
"movie.mp4" for job id "abc123", and a filename without the prefix is
returned unchanged. -/
theorem C8_strip_uuid :
    (∀ job_id r : String, finalName job_id (job_id ++ "_" ++ r) = r) ∧
    (∀ job_id s : String, pyStartsWith s (job_id ++ "_") = false → finalName job_id s = s) ∧
    finalName "abc123" "abc123_movie.mp4" = "movie.mp4" ∧
    finalName "abc123" "movie.mp4" = "movie.mp4" ∧
    getFinalRemotePath "abc123" "/remote/media" "/tmp/o/abc123_movie.mp4"
      = "/remote/media/movie.mp4" := by
  refine ⟨?_, ?_, by decide, by decide, by decide⟩
  · intro id r
    have hpre : pyStartsWith (id ++ "_" ++ r) (id ++ "_") = true := by
      simp only [pyStartsWith, String.data_append, List.isPrefixOf_iff_prefix]
      exact List.prefix_append _ _
    have hlen : id.length + 1 = (id ++ "_").data.length := by
      show id.length + 1 = (id ++ "_").length
      simp [String.length_append]
      rfl
    simp only [finalName, hpre, if_true, pyDrop, String.data_append, hlen]
    rw [List.drop_left]
  · intro id s h
    simp [finalName, h]

/-- C8 witness: the defensive fallback at a concrete non-prefixed filename. -/
theorem C8_witness :
    pyStartsWith "movie.mp4" ("abc123" ++ "_") = false ∧
    finalName "abc123" "movie.mp4" = "movie.mp4" :=
  ⟨by decide, C8_strip_uuid.2.1 "abc123" "movie.mp4" (by decide)⟩

end Cinchro
